import Mathlib

/-!
Shallow embedding of the observability_comparison repository (src/config.py,
src/main.py, src/app/main.py) and proofs of the frozen claims about it.

Conventions of the embedding:
* Python module-level environment reads become explicit parameters
  (`env : Option String` for `os.getenv`, `backend : String` for the module
  constant `OBSERVABILITY_BACKEND`).
* The mutable module globals of `config.py` (`telemetry_configured`,
  `prometheus_registry`, `counter`, `histogram`, `gauge`) become the fields of
  `ConfigState`; functions that mutate them become state transformers.
* OpenTelemetry / prometheus_client library objects are modelled just deeply
  enough for the claims: an `Instrument` records which call shapes it accepts
  (OTel instruments take `(value, attributes)` inline; prometheus label-parent
  instruments require `.labels(**attrs)` first and raise on the inline shape),
  and metric aggregates are association lists keyed by the route label set.
* Raised Python exceptions become `Except.error` / explicit error results.
-/

set_option linter.unusedVariables false

namespace Obs

/-- The route label set `{"method": ..., "path": ...}` attached to every
metric emission (src/main.py line 21, src/app/main.py line 23). -/
structure RouteAttrs where
  method : String
  path : String
deriving DecidableEq, Repr

/-- An inbound HTTP request, reduced to the parts the middleware reads. -/
structure Request where
  method : String
  path : String
deriving DecidableEq, Repr

/-- An HTTP response: status code, headers, body. -/
structure Response where
  status : Nat
  headers : List (String × String)
  body : String
deriving DecidableEq, Repr

/-- Which call shapes a metric instrument accepts.  `otel` instruments
(`meter.create_counter` etc., src/config.py lines 187-201) take
`(value, attributes)` inline; `promParent` instruments
(`prometheus_client.Counter(..., labelnames=...)` etc., lines 164-175) are
label parents: they only accept mutation through a `.labels(**attrs)` child
and raise on the inline call shape. -/
inductive InstrumentKind where
  | otel
  | promParent
deriving DecidableEq, Repr

/-- A metric instrument as published in the `config` module globals: its call
shape, its metric family name, and an allocation identity (so that theorems
can speak about instrument identities across `setup_telemetry` calls). -/
structure Instrument where
  kind : InstrumentKind
  name : String
  id : Nat
deriving DecidableEq, Repr

/-- The prometheus registry handle, modelled as the list of registered metric
family names in registration order (src/config.py lines 161-175). -/
abbrev Registry := List String

/-- The mutable module-level state of `src/config.py`: the globals
`telemetry_configured`, `prometheus_registry`, `counter`, `histogram`,
`gauge` (lines 77-84), plus counts of provider/handler installations
performed by the setup functions (so that "no second provider installation
is attempted" is visible in the state) and the next instrument identity. -/
structure ConfigState where
  telemetry_configured : Bool
  prometheus_registry : Option Registry
  counter : Option Instrument
  histogram : Option Instrument
  gauge : Option Instrument
  tracerProviderInstalls : Nat
  otelLogHandlerInstalls : Nat
  fileLogHandlerInstalls : Nat
  meterProviderInstalls : Nat
  nextInstrumentId : Nat
deriving DecidableEq

/-- The module state right after `src/config.py` is imported: all globals
`False`/`None` (lines 77-84), nothing installed yet. -/
def initialConfig : ConfigState :=
  { telemetry_configured := false
    prometheus_registry := none
    counter := none
    histogram := none
    gauge := none
    tracerProviderInstalls := 0
    otelLogHandlerInstalls := 0
    fileLogHandlerInstalls := 0
    meterProviderInstalls := 0
    nextInstrumentId := 0 }

/-- Embeds `OBSERVABILITY_BACKEND = os.getenv("OBSERVABILITY_BACKEND", "signoz")`
(src/config.py line 30): the raw environment value with default `"signoz"`. -/
def OBSERVABILITY_BACKEND (env : Option String) : String :=
  env.getD "signoz"

/-- The two backend modes of the spec: push (batched remote export) vs pull
(local registry scraped on demand). -/
inductive BackendMode where
  | push
  | pull
deriving DecidableEq, Repr

/-- The backend mode implied by a resolved `OBSERVABILITY_BACKEND` string:
every branch in src/config.py tests `OBSERVABILITY_BACKEND != "signoz"`
(lines 115, 131, 157, 211, 221, 231), so `"signoz"` is push and everything
else is pull. -/
def backendModeOf (backend : String) : BackendMode :=
  if backend = "signoz" then .push else .pull

/-- The full backend mode resolver: environment value (possibly absent) to
mode, through the defaulted `OBSERVABILITY_BACKEND` constant. -/
def resolve (env : Option String) : BackendMode :=
  backendModeOf (OBSERVABILITY_BACKEND env)

/-- The instrument kind `setup_metrics` constructs for a given backend value:
OTel instruments for `"signoz"`, prometheus label parents otherwise. -/
def kindFor (backend : String) : InstrumentKind :=
  if backend = "signoz" then .otel else .promParent

/-- Embeds `setup_tracing` (src/config.py lines 110-125): in pull mode returns
without doing anything; in push mode builds a `TracerProvider` and installs
it process-wide via `trace.set_tracer_provider`. -/
def setup_tracing (backend : String) (s : ConfigState) : ConfigState :=
  if backend ≠ "signoz" then s
  else { s with tracerProviderInstalls := s.tracerProviderInstalls + 1 }

/-- Embeds `setup_logging` (src/config.py lines 128-149): pull mode attaches a local
file handler to the root logger; push mode installs a `LoggerProvider` with an
OTLP pipeline and attaches a `LoggingHandler` to the root logger. -/
def setup_logging (backend : String) (s : ConfigState) : ConfigState :=
  if backend ≠ "signoz" then
    { s with fileLogHandlerInstalls := s.fileLogHandlerInstalls + 1 }
  else
    { s with otelLogHandlerInstalls := s.otelLogHandlerInstalls + 1 }

/-- Embeds `setup_metrics` (src/config.py lines 152-204): pull mode publishes the
prometheus registry and registers three label-parent instruments with it;
push mode installs a `MeterProvider` with a periodic exporting reader and
creates three OTel instruments.  Returns the updated state and the
`(counter, histogram, gauge)` triple, as the Python function does. -/
def setup_metrics (backend : String) (s : ConfigState) :
    ConfigState × (Instrument × Instrument × Instrument) :=
  if backend ≠ "signoz" then
    let reg : Registry :=
      ["http_requests_total", "http_request_duration_seconds", "active_users"]
    let c : Instrument := ⟨.promParent, "http_requests_total", s.nextInstrumentId⟩
    let h : Instrument := ⟨.promParent, "http_request_duration_seconds", s.nextInstrumentId + 1⟩
    let g : Instrument := ⟨.promParent, "active_users", s.nextInstrumentId + 2⟩
    ({ s with prometheus_registry := some reg
              nextInstrumentId := s.nextInstrumentId + 3 }, (c, h, g))
  else
    let c : Instrument := ⟨.otel, "http_requests_total", s.nextInstrumentId⟩
    let h : Instrument := ⟨.otel, "http_request_duration_seconds", s.nextInstrumentId + 1⟩
    let g : Instrument := ⟨.otel, "active_users", s.nextInstrumentId + 2⟩
    ({ s with meterProviderInstalls := s.meterProviderInstalls + 1
              nextInstrumentId := s.nextInstrumentId + 3 }, (c, h, g))

/-- Embeds `setup_telemetry` (src/config.py lines 87-107): returns immediately when
`telemetry_configured` is already set; otherwise runs tracing, logging and
metrics setup, publishes the three instruments in the module globals, and
sets the flag. -/
def setup_telemetry (backend : String) (s : ConfigState) : ConfigState :=
  if s.telemetry_configured then s
  else
    let s1 := setup_tracing backend s
    let s2 := setup_logging backend s1
    let r := setup_metrics backend s2
    { r.1 with
      counter := some r.2.1
      histogram := some r.2.2.1
      gauge := some r.2.2.2
      telemetry_configured := true }

/-- The aggregated metric values, keyed by route label set: counter totals,
histogram observation lists, gauge values.  Association lists model the
per-label children of prometheus parents and the per-attribute aggregation
of OTel instruments alike. -/
structure MetricsState where
  counter : List (RouteAttrs × ℚ)
  histogram : List (RouteAttrs × List ℚ)
  gauge : List (RouteAttrs × ℚ)
deriving DecidableEq

/-- The empty metric aggregate: no label child observed yet. -/
def emptyMetrics : MetricsState := ⟨[], [], []⟩

/-- Look up the scalar aggregate for a label set; an unobserved label set
reads as 0 (a fresh prometheus child starts at 0). -/
def lookupQ : List (RouteAttrs × ℚ) → RouteAttrs → ℚ
  | [], _ => 0
  | (a, v) :: rest, attrs => if a = attrs then v else lookupQ rest attrs

/-- Look up the histogram observation list for a label set. -/
def lookupH : List (RouteAttrs × List ℚ) → RouteAttrs → List ℚ
  | [], _ => []
  | (a, v) :: rest, attrs => if a = attrs then v else lookupH rest attrs

/-- Update the scalar aggregate for a label set through `f`, creating the
label child (from 0) if absent. -/
def updQ : List (RouteAttrs × ℚ) → RouteAttrs → (ℚ → ℚ) → List (RouteAttrs × ℚ)
  | [], attrs, f => [(attrs, f 0)]
  | (a, v) :: rest, attrs, f =>
      if a = attrs then (a, f v) :: rest else (a, v) :: updQ rest attrs f

/-- Update the histogram observation list for a label set through `f`,
creating the label child (from the empty list) if absent. -/
def updH : List (RouteAttrs × List ℚ) → RouteAttrs → (List ℚ → List ℚ) →
    List (RouteAttrs × List ℚ)
  | [], attrs, f => [(attrs, f [])]
  | (a, v) :: rest, attrs, f =>
      if a = attrs then (a, f v) :: rest else (a, v) :: updH rest attrs f

/-- The semantic effect of adding `amount` to the counter under `attrs`. -/
def counterIncPure (amount : ℚ) (attrs : RouteAttrs) (m : MetricsState) : MetricsState :=
  { m with counter := updQ m.counter attrs (· + amount) }

/-- The semantic effect of observing `value` in the histogram under `attrs`. -/
def histObservePure (value : ℚ) (attrs : RouteAttrs) (m : MetricsState) : MetricsState :=
  { m with histogram := updH m.histogram attrs (· ++ [value]) }

/-- The semantic effect of setting the gauge under `attrs` to `value`. -/
def gaugeSetPure (value : ℚ) (attrs : RouteAttrs) (m : MetricsState) : MetricsState :=
  { m with gauge := updQ m.gauge attrs (fun _ => value) }

/-- The inline OTel call shape `counter.add(amount, attributes)`
(src/main.py line 35): succeeds on an OTel counter; a prometheus `Counter`
has no `add` method, so the call raises. -/
def Instrument.add (inst : Instrument) (amount : ℚ) (attrs : RouteAttrs)
    (m : MetricsState) : Except String MetricsState :=
  match inst.kind with
  | .otel => .ok (counterIncPure amount attrs m)
  | .promParent => .error "AttributeError: Counter object has no attribute add"

/-- The inline OTel call shape `histogram.record(value, attributes)`
(src/main.py line 36): succeeds on an OTel histogram; a prometheus
`Histogram` has no `record` method, so the call raises. -/
def Instrument.record (inst : Instrument) (value : ℚ) (attrs : RouteAttrs)
    (m : MetricsState) : Except String MetricsState :=
  match inst.kind with
  | .otel => .ok (histObservePure value attrs m)
  | .promParent => .error "AttributeError: Histogram object has no attribute record"

/-- The inline OTel call shape `gauge.set(value, attributes)` (src/main.py
lines 25 and 40): succeeds on an OTel gauge; a prometheus label-parent
`Gauge` rejects it (its `set` takes a single value and requires resolving a
label-bound child first), so the call raises. -/
def Instrument.set (inst : Instrument) (value : ℚ) (attrs : RouteAttrs)
    (m : MetricsState) : Except String MetricsState :=
  match inst.kind with
  | .otel => .ok (gaugeSetPure value attrs m)
  | .promParent => .error "ValueError: Gauge requires a label child before set"

/-- The prometheus call shape `counter.labels(**attrs).inc(amount)`
(src/config.py line 214): succeeds on a label parent; an OTel counter has no
`labels` method, so the call raises. -/
def Instrument.labelsInc (inst : Instrument) (amount : ℚ) (attrs : RouteAttrs)
    (m : MetricsState) : Except String MetricsState :=
  match inst.kind with
  | .promParent => .ok (counterIncPure amount attrs m)
  | .otel => .error "AttributeError: no attribute labels"

/-- The prometheus call shape `histogram.labels(**attrs).observe(value)`
(src/config.py line 224). -/
def Instrument.labelsObserve (inst : Instrument) (value : ℚ) (attrs : RouteAttrs)
    (m : MetricsState) : Except String MetricsState :=
  match inst.kind with
  | .promParent => .ok (histObservePure value attrs m)
  | .otel => .error "AttributeError: no attribute labels"

/-- The prometheus call shape `gauge.labels(**attrs).set(value)`
(src/config.py line 234). -/
def Instrument.labelsSet (inst : Instrument) (value : ℚ) (attrs : RouteAttrs)
    (m : MetricsState) : Except String MetricsState :=
  match inst.kind with
  | .promParent => .ok (gaugeSetPure value attrs m)
  | .otel => .error "AttributeError: no attribute labels"

/-- Embeds `increment_counter` (src/config.py lines 207-214): backend-dispatching
facade over the two counter call shapes. -/
def increment_counter (backend : String) (counter : Instrument) (amount : ℚ)
    (attrs : RouteAttrs) (m : MetricsState) : Except String MetricsState :=
  if backend = "signoz" then counter.add amount attrs m
  else counter.labelsInc amount attrs m

/-- Embeds `record_histogram` (src/config.py lines 217-224): backend-dispatching
facade over the two histogram call shapes. -/
def record_histogram (backend : String) (histogram : Instrument) (value : ℚ)
    (attrs : RouteAttrs) (m : MetricsState) : Except String MetricsState :=
  if backend = "signoz" then histogram.record value attrs m
  else histogram.labelsObserve value attrs m

/-- Embeds `set_gauge` (src/config.py lines 227-234): backend-dispatching facade
over the two gauge call shapes. -/
def set_gauge (backend : String) (gauge : Instrument) (value : ℚ)
    (attrs : RouteAttrs) (m : MetricsState) : Except String MetricsState :=
  if backend = "signoz" then gauge.set value attrs m
  else gauge.labelsSet value attrs m

/-- The config globals hold instruments whose call shape matches the backend
branch taken by the facade functions — the state `setup_telemetry` leaves
behind for its own backend value. -/
def instrumentsConsistent (backend : String) (cfg : ConfigState) : Prop :=
  cfg.counter.map Instrument.kind = some (kindFor backend) ∧
  cfg.histogram.map Instrument.kind = some (kindFor backend) ∧
  cfg.gauge.map Instrument.kind = some (kindFor backend)

instance (backend : String) (cfg : ConfigState) :
    Decidable (instrumentsConsistent backend cfg) := by
  unfold instrumentsConsistent
  infer_instance

theorem setup_telemetry_configured (backend : String) (s : ConfigState) :
    (setup_telemetry backend s).telemetry_configured = true := by
  unfold setup_telemetry
  split
  · assumption
  · rfl

/-- The decimal digits of `n`, most significant first (`[0]` for 0). -/
def natDigits (n : Nat) : List Nat :=
  if h : n < 10 then [n] else natDigits (n / 10) ++ [n % 10]
decreasing_by
  exact Nat.div_lt_self (by omega) (by omega)

/-- The ASCII character for decimal digit `d` (clamped to `'0'` above 9;
callers only pass digits). -/
def digitCh : Nat → Char
  | 0 => '0'
  | 1 => '1'
  | 2 => '2'
  | 3 => '3'
  | 4 => '4'
  | 5 => '5'
  | 6 => '6'
  | 7 => '7'
  | 8 => '8'
  | 9 => '9'
  | _ => '0'

/-- Is `c` an ASCII decimal digit. -/
def isDigitCh (c : Char) : Bool :=
  48 ≤ c.toNat && c.toNat ≤ 57

/-- Numeric value of an ASCII decimal digit character. -/
def chVal (c : Char) : Nat := c.toNat - 48

/-- Value of a most-significant-first decimal digit list. -/
def digitsVal (l : List Nat) : Nat :=
  l.foldl (fun acc d => acc * 10 + d) 0

/-- Split a character list at the first `'.'`: the part before and the part
after, or `none` when no dot occurs. -/
def splitAtDot : List Char → Option (List Char × List Char)
  | [] => none
  | c :: cs =>
    if c = '.' then some ([], cs)
    else
      match splitAtDot cs with
      | none => none
      | some (a, b) => some (c :: a, b)

/-- Decimal rendering of a natural number. -/
def natRepr (n : Nat) : String :=
  ⟨(natDigits n).map digitCh⟩

/-- The value `q * 100` rounded to an integer count of hundredths. -/
def roundCents (q : ℚ) : Int := ⌊q * 100 + 1 / 2⌋

/-- The Python fixed-point formatting `f"{q:.2f}"` (src/main.py line 33,
src/app/main.py line 35): the value rounded to hundredths, rendered with an
optional sign, an integer part and exactly two fractional digits. -/
def formatFixed2 (q : ℚ) : String :=
  let n : Int := roundCents q
  let m : Nat := n.natAbs
  ⟨(if n < 0 then ['-'] else []) ++ (natDigits (m / 100)).map digitCh ++
    '.' :: [digitCh (m / 10 % 10), digitCh (m % 10)]⟩

/-- The shape check behind "fixed-point string with exactly two decimal
digits": a nonempty all-digit integer part, a dot, exactly two digits. -/
def isFixed2 (s : String) : Bool :=
  match splitAtDot s.data with
  | some (a, b) => !a.isEmpty && a.all isDigitCh && (b.length == 2) && b.all isDigitCh
  | none => false

/-- Parse a two-decimal fixed-point string into a rational, `none` when the
string is not of that shape (a sign in particular makes it fail, so success
also certifies non-negativity of the written number). -/
def parseFixed2 (s : String) : Option ℚ :=
  match splitAtDot s.data with
  | some (a, b) =>
    if !a.isEmpty && a.all isDigitCh && (b.length == 2) && b.all isDigitCh then
      some ((digitsVal (a.map chVal) : ℚ) + (digitsVal (b.map chVal) : ℚ) / 100)
    else none
  | none => none

theorem natDigits_ne_nil (n : Nat) : natDigits n ≠ [] := by
  rw [natDigits]
  split
  · simp
  · simp

theorem digitCh_isDigit (d : Nat) : isDigitCh (digitCh d) = true := by
  unfold digitCh
  split <;> decide

theorem digitCh_ne_dot (d : Nat) : ¬ digitCh d = '.' := by
  unfold digitCh
  split <;> decide

theorem splitAtDot_append (a b : List Char) (ha : ∀ c ∈ a, ¬ c = '.') :
    splitAtDot (a ++ '.' :: b) = some (a, b) := by
  induction a with
  | nil => simp [splitAtDot]
  | cons c cs ih =>
    have hc : ¬ c = '.' := ha c (by simp)
    have ih' := ih (fun x hx => ha x (by simp [hx]))
    simp [splitAtDot, hc, ih']

/-- Applying `formatFixed2` to a non-negative rational has the two-decimal shape and
parses back to a non-negative rational. -/
theorem formatFixed2_shape (q : ℚ) (hq : 0 ≤ q) :
    isFixed2 (formatFixed2 q) = true ∧
    ∃ r : ℚ, parseFixed2 (formatFixed2 q) = some r ∧ 0 ≤ r := by
  have hn : 0 ≤ roundCents q := by
    unfold roundCents
    refine Int.le_floor.mpr ?_
    push_cast
    nlinarith
  have h0 : ¬ roundCents q < 0 := not_lt.mpr hn
  have hdata : (formatFixed2 q).data =
      (natDigits ((roundCents q).natAbs / 100)).map digitCh ++
        '.' :: [digitCh ((roundCents q).natAbs / 10 % 10),
                digitCh ((roundCents q).natAbs % 10)] := by
    simp [formatFixed2, h0]
  have hA : ∀ c ∈ (natDigits ((roundCents q).natAbs / 100)).map digitCh,
      ¬ c = '.' := by
    intro c hc
    rw [List.mem_map] at hc
    obtain ⟨d, _, rfl⟩ := hc
    exact digitCh_ne_dot d
  have hsplit : splitAtDot (formatFixed2 q).data =
      some ((natDigits ((roundCents q).natAbs / 100)).map digitCh,
            [digitCh ((roundCents q).natAbs / 10 % 10),
             digitCh ((roundCents q).natAbs % 10)]) := by
    rw [hdata]
    exact splitAtDot_append _ _ hA
  have hne : ((natDigits ((roundCents q).natAbs / 100)).map digitCh).isEmpty = false := by
    rcases hcase : natDigits ((roundCents q).natAbs / 100) with _ | ⟨d, ds⟩
    · exact absurd hcase (natDigits_ne_nil _)
    · rfl
  have hall : ((natDigits ((roundCents q).natAbs / 100)).map digitCh).all isDigitCh = true := by
    rw [List.all_eq_true]
    intro c hc
    rw [List.mem_map] at hc
    obtain ⟨d, _, rfl⟩ := hc
    exact digitCh_isDigit d
  refine ⟨?_, ?_⟩
  · unfold isFixed2
    rw [hsplit]
    simp [hne, hall, digitCh_isDigit]
  · refine ⟨(digitsVal (((natDigits ((roundCents q).natAbs / 100)).map digitCh).map chVal) : ℚ) +
      (digitsVal (([digitCh ((roundCents q).natAbs / 10 % 10),
                    digitCh ((roundCents q).natAbs % 10)] : List Char).map chVal) : ℚ) / 100,
      ?_, by positivity⟩
    unfold parseFixed2
    rw [hsplit]
    simp [hne, hall, digitCh_isDigit]

/-- The server-side mutable state the middleware touches: the module global
`active_users` (src/main.py line 16, src/app/main.py line 18) and the metric
aggregates behind the published instruments. -/
structure SrvState where
  active_users : Int
  metrics : MetricsState
deriving DecidableEq

/-- What `await call_next(request)` does: either returns a response (its
status code and body) or raises out of the middleware. -/
inductive MwOutcome where
  | ok (status : Nat) (body : String)
  | raises
deriving DecidableEq, Repr

/-- The observable result of one middleware invocation: a finished response,
a propagated handler exception, or a raised instrument/attribute error. -/
inductive MwResult where
  | success (resp : Response)
  | handlerError
  | attrError (msg : String)
deriving DecidableEq, Repr

/-- Is the result a raised instrument/attribute error. -/
def MwResult.isAttrError : MwResult → Bool
  | .attrError _ => true
  | _ => false

/-- Embeds `handle_incoming_requests` of src/app/main.py (lines 21-50), the variant
that drives the instruments through the `config` facade functions: derive
the route label set, bump `active_users` and write it to the gauge, run the
downstream handler, then stamp the `X-Process-Time` header, bump the
counter, observe the duration, decrement `active_users` and write it to the
gauge.  A raise at any point (handler failure or instrument error)
propagates, skipping every later step but keeping earlier mutations. -/
def handle_incoming_requests (backend : String) (cfg : ConfigState)
    (req : Request) (elapsed : ℚ) (outcome : MwOutcome) (s : SrvState) :
    MwResult × SrvState :=
  let route_attrs : RouteAttrs := ⟨req.method, req.path⟩
  let active1 := s.active_users + 1
  match cfg.gauge with
  | none => (.attrError "AttributeError: NoneType", { s with active_users := active1 })
  | some gauge =>
  match set_gauge backend gauge (active1 : ℚ) route_attrs s.metrics with
  | .error e => (.attrError e, { s with active_users := active1 })
  | .ok m1 =>
  match outcome with
  | .raises => (.handlerError, ⟨active1, m1⟩)
  | .ok status body =>
  let header := ("X-Process-Time", formatFixed2 elapsed)
  match cfg.counter with
  | none => (.attrError "AttributeError: NoneType", ⟨active1, m1⟩)
  | some counter =>
  match increment_counter backend counter 1 route_attrs m1 with
  | .error e => (.attrError e, ⟨active1, m1⟩)
  | .ok m2 =>
  match cfg.histogram with
  | none => (.attrError "AttributeError: NoneType", ⟨active1, m2⟩)
  | some histogram =>
  match record_histogram backend histogram elapsed route_attrs m2 with
  | .error e => (.attrError e, ⟨active1, m2⟩)
  | .ok m3 =>
  let active2 := active1 - 1
  match set_gauge backend gauge (active2 : ℚ) route_attrs m3 with
  | .error e => (.attrError e, ⟨active2, m3⟩)
  | .ok m4 =>
    (.success ⟨status, [header], body⟩, ⟨active2, m4⟩)

/-- Embeds `handle_incoming_requests` of src/main.py (lines 19-48), the variant that
invokes the push-style instrument methods directly — `config.gauge.set(v,
attrs)`, `config.counter.add(1, attrs)`, `config.histogram.record(t, attrs)`
— with no branch on the resolved backend mode. -/
def handle_incoming_requests_direct (cfg : ConfigState) (req : Request)
    (elapsed : ℚ) (outcome : MwOutcome) (s : SrvState) : MwResult × SrvState :=
  let route_attrs : RouteAttrs := ⟨req.method, req.path⟩
  let active1 := s.active_users + 1
  match cfg.gauge with
  | none => (.attrError "AttributeError: NoneType", { s with active_users := active1 })
  | some gauge =>
  match gauge.set (active1 : ℚ) route_attrs s.metrics with
  | .error e => (.attrError e, { s with active_users := active1 })
  | .ok m1 =>
  match outcome with
  | .raises => (.handlerError, ⟨active1, m1⟩)
  | .ok status body =>
  let header := ("X-Process-Time", formatFixed2 elapsed)
  match cfg.counter with
  | none => (.attrError "AttributeError: NoneType", ⟨active1, m1⟩)
  | some counter =>
  match counter.add 1 route_attrs m1 with
  | .error e => (.attrError e, ⟨active1, m1⟩)
  | .ok m2 =>
  match cfg.histogram with
  | none => (.attrError "AttributeError: NoneType", ⟨active1, m2⟩)
  | some histogram =>
  match histogram.record elapsed route_attrs m2 with
  | .error e => (.attrError e, ⟨active1, m2⟩)
  | .ok m3 =>
  let active2 := active1 - 1
  match gauge.set (active2 : ℚ) route_attrs m3 with
  | .error e => (.attrError e, ⟨active2, m3⟩)
  | .ok m4 =>
    (.success ⟨status, [header], body⟩, ⟨active2, m4⟩)

@[simp] theorem counterIncPure_histogram (amount : ℚ) (a : RouteAttrs) (m : MetricsState) :
    (counterIncPure amount a m).histogram = m.histogram := rfl

@[simp] theorem counterIncPure_gauge (amount : ℚ) (a : RouteAttrs) (m : MetricsState) :
    (counterIncPure amount a m).gauge = m.gauge := rfl

@[simp] theorem counterIncPure_counter (amount : ℚ) (a : RouteAttrs) (m : MetricsState) :
    (counterIncPure amount a m).counter = updQ m.counter a (· + amount) := rfl

@[simp] theorem histObservePure_counter (v : ℚ) (a : RouteAttrs) (m : MetricsState) :
    (histObservePure v a m).counter = m.counter := rfl

@[simp] theorem histObservePure_gauge (v : ℚ) (a : RouteAttrs) (m : MetricsState) :
    (histObservePure v a m).gauge = m.gauge := rfl

@[simp] theorem histObservePure_histogram (v : ℚ) (a : RouteAttrs) (m : MetricsState) :
    (histObservePure v a m).histogram = updH m.histogram a (· ++ [v]) := rfl

@[simp] theorem gaugeSetPure_counter (v : ℚ) (a : RouteAttrs) (m : MetricsState) :
    (gaugeSetPure v a m).counter = m.counter := rfl

@[simp] theorem gaugeSetPure_histogram (v : ℚ) (a : RouteAttrs) (m : MetricsState) :
    (gaugeSetPure v a m).histogram = m.histogram := rfl

@[simp] theorem gaugeSetPure_gauge (v : ℚ) (a : RouteAttrs) (m : MetricsState) :
    (gaugeSetPure v a m).gauge = updQ m.gauge a (fun _ => v) := rfl

theorem lookupQ_updQ_same (l : List (RouteAttrs × ℚ)) (attrs : RouteAttrs)
    (f : ℚ → ℚ) : lookupQ (updQ l attrs f) attrs = f (lookupQ l attrs) := by
  induction l with
  | nil => simp [updQ, lookupQ]
  | cons p rest ih =>
    obtain ⟨a, v⟩ := p
    by_cases h : a = attrs <;> simp [updQ, lookupQ, h, ih]

theorem lookupQ_updQ_other (l : List (RouteAttrs × ℚ)) (attrs a' : RouteAttrs)
    (f : ℚ → ℚ) (h : a' ≠ attrs) :
    lookupQ (updQ l attrs f) a' = lookupQ l a' := by
  induction l with
  | nil =>
    simp only [updQ, lookupQ]
    rw [if_neg (fun hc => h hc.symm)]
  | cons p rest ih =>
    obtain ⟨a, v⟩ := p
    by_cases ha : a = attrs
    · subst ha
      have hne : ¬ a = a' := fun hc => h hc.symm
      simp [updQ, lookupQ, hne]
    · by_cases ha' : a = a'
      · subst ha'
        simp [updQ, lookupQ, ha]
      · simp [updQ, lookupQ, ha, ha', ih]

theorem lookupH_updH_same (l : List (RouteAttrs × List ℚ)) (attrs : RouteAttrs)
    (f : List ℚ → List ℚ) : lookupH (updH l attrs f) attrs = f (lookupH l attrs) := by
  induction l with
  | nil => simp [updH, lookupH]
  | cons p rest ih =>
    obtain ⟨a, v⟩ := p
    by_cases h : a = attrs <;> simp [updH, lookupH, h, ih]

theorem lookupH_updH_other (l : List (RouteAttrs × List ℚ)) (attrs a' : RouteAttrs)
    (f : List ℚ → List ℚ) (h : a' ≠ attrs) :
    lookupH (updH l attrs f) a' = lookupH l a' := by
  induction l with
  | nil =>
    simp only [updH, lookupH]
    rw [if_neg (fun hc => h hc.symm)]
  | cons p rest ih =>
    obtain ⟨a, v⟩ := p
    by_cases ha : a = attrs
    · subst ha
      have hne : ¬ a = a' := fun hc => h hc.symm
      simp [updH, lookupH, hne]
    · by_cases ha' : a = a'
      · subst ha'
        simp [updH, lookupH, ha]
      · simp [updH, lookupH, ha, ha', ih]

theorem increment_counter_consistent (backend : String) (c : Instrument)
    (hc : c.kind = kindFor backend) (amount : ℚ) (attrs : RouteAttrs)
    (m : MetricsState) :
    increment_counter backend c amount attrs m = .ok (counterIncPure amount attrs m) := by
  unfold increment_counter kindFor at *
  by_cases hb : backend = "signoz" <;>
    simp [hb] at hc ⊢ <;> simp [Instrument.add, Instrument.labelsInc, hc]

theorem record_histogram_consistent (backend : String) (h : Instrument)
    (hh : h.kind = kindFor backend) (value : ℚ) (attrs : RouteAttrs)
    (m : MetricsState) :
    record_histogram backend h value attrs m = .ok (histObservePure value attrs m) := by
  unfold record_histogram kindFor at *
  by_cases hb : backend = "signoz" <;>
    simp [hb] at hh ⊢ <;> simp [Instrument.record, Instrument.labelsObserve, hh]

theorem set_gauge_consistent (backend : String) (g : Instrument)
    (hg : g.kind = kindFor backend) (value : ℚ) (attrs : RouteAttrs)
    (m : MetricsState) :
    set_gauge backend g value attrs m = .ok (gaugeSetPure value attrs m) := by
  unfold set_gauge kindFor at *
  by_cases hb : backend = "signoz" <;>
    simp [hb] at hg ⊢ <;> simp [Instrument.set, Instrument.labelsSet, hg]

/-- Running `setup_telemetry` from a fresh module state leaves instruments whose call
shape matches its backend value. -/
theorem setup_telemetry_consistent (backend : String) :
    instrumentsConsistent backend (setup_telemetry backend initialConfig) := by
  unfold instrumentsConsistent setup_telemetry setup_metrics setup_logging
    setup_tracing kindFor initialConfig
  by_cases hb : backend = "signoz" <;> simp [hb]

/-- On a config whose instruments match the backend (the state
`setup_telemetry` produces), the facade middleware with a succeeding handler
runs all four COMPLETED steps and returns the handler's response with the
`X-Process-Time` header. -/
theorem handle_incoming_requests_ok (backend : String) (cfg : ConfigState)
    (h : instrumentsConsistent backend cfg) (req : Request) (elapsed : ℚ)
    (status : Nat) (body : String) (s : SrvState) :
    handle_incoming_requests backend cfg req elapsed (.ok status body) s =
      (.success ⟨status, [("X-Process-Time", formatFixed2 elapsed)], body⟩,
       ⟨s.active_users,
        gaugeSetPure ((s.active_users : ℚ)) ⟨req.method, req.path⟩
          (histObservePure elapsed ⟨req.method, req.path⟩
            (counterIncPure 1 ⟨req.method, req.path⟩
              (gaugeSetPure ((s.active_users + 1 : Int) : ℚ) ⟨req.method, req.path⟩
                s.metrics)))⟩) := by
  obtain ⟨hc, hh, hg⟩ := h
  rw [Option.map_eq_some'] at hc hh hg
  obtain ⟨c, hceq, hck⟩ := hc
  obtain ⟨hi, hheq, hhk⟩ := hh
  obtain ⟨g, hgeq, hgk⟩ := hg
  simp only [handle_incoming_requests, hceq, hheq, hgeq,
    set_gauge_consistent backend g hgk, increment_counter_consistent backend c hck,
    record_histogram_consistent backend hi hhk]
  norm_num

/-- On a consistent config, the facade middleware with a failing handler
performs only the ENTERED steps: `active_users` is incremented and written
to the gauge, and the exception propagates. -/
theorem handle_incoming_requests_raises (backend : String) (cfg : ConfigState)
    (h : instrumentsConsistent backend cfg) (req : Request) (elapsed : ℚ)
    (s : SrvState) :
    handle_incoming_requests backend cfg req elapsed .raises s =
      (.handlerError,
       ⟨s.active_users + 1,
        gaugeSetPure ((s.active_users + 1 : Int) : ℚ) ⟨req.method, req.path⟩
          s.metrics⟩) := by
  obtain ⟨hc, hh, hg⟩ := h
  rw [Option.map_eq_some'] at hg
  obtain ⟨g, hgeq, hgk⟩ := hg
  simp only [handle_incoming_requests, hgeq, set_gauge_consistent backend g hgk]

/-- C2: the claim as written says an absent configuration value selects pull
mode; the code defaults an absent value to `"signoz"` (src/config.py line
30), which selects push mode. -/
theorem resolve_none_not_pull : ¬ resolve none = BackendMode.pull := by
  decide

/-- C2 (amended): the resolver maps `"signoz"` to push mode and every other
present value to pull mode; an absent configuration value defaults to
`"signoz"` and therefore selects push mode. -/
theorem resolve_spec :
    (∀ v : String, v ≠ "signoz" → resolve (some v) = BackendMode.pull) ∧
    resolve (some "signoz") = BackendMode.push ∧
    resolve none = BackendMode.push := by
  refine ⟨?_, by decide, by decide⟩
  intro v hv
  simp [resolve, OBSERVABILITY_BACKEND, backendModeOf, hv]

/-- C2 witness: the amended resolver behaviour at the concrete value
`"prometheus"`. -/
theorem resolve_spec_witness :
    "prometheus" ≠ "signoz" ∧ resolve (some "prometheus") = BackendMode.pull :=
  ⟨by decide, resolve_spec.1 "prometheus" (by decide)⟩

theorem setup_telemetry_of_configured (backend : String) (t : ConfigState)
    (h : t.telemetry_configured = true) : setup_telemetry backend t = t := by
  unfold setup_telemetry
  simp [h]

/-- C3: `setup_telemetry` is idempotent.  One call leaves the configured flag
set, and a second call with the same backend returns the state unchanged —
same instrument identities, same provider/handler installation counts, same
registry handle, no second installation attempted. -/
theorem setup_telemetry_idempotent (backend : String) (s : ConfigState) :
    (setup_telemetry backend s).telemetry_configured = true ∧
    setup_telemetry backend (setup_telemetry backend s) =
      setup_telemetry backend s :=
  ⟨setup_telemetry_configured backend s,
   setup_telemetry_of_configured backend _ (setup_telemetry_configured backend s)⟩

/-- One scheduling-relevant phase of a request's middleware execution.  The
middleware body only suspends at `await call_next(request)` (src/app/main.py
line 32), so under cooperative scheduling the ENTERED phase (increment and
gauge write) and the COMPLETED phase (counter, histogram, decrement and
gauge write) each run atomically; concurrent requests interleave these
phases. -/
inductive Event where
  | enter (attrs : RouteAttrs)
  | complete (attrs : RouteAttrs) (elapsed : ℚ)
deriving DecidableEq

/-- The state transition of one middleware phase, with the instruments read
from the config globals and driven through the facade (src/app/main.py lines
25-27 and 37-42).  A facade error leaves the remaining mutations undone. -/
def stepEvent (backend : String) (cfg : ConfigState) (e : Event) (s : SrvState) :
    SrvState :=
  match e with
  | .enter attrs =>
    let active1 := s.active_users + 1
    match cfg.gauge with
    | none => { s with active_users := active1 }
    | some gauge =>
      match set_gauge backend gauge (active1 : ℚ) attrs s.metrics with
      | .error _ => { s with active_users := active1 }
      | .ok m1 => ⟨active1, m1⟩
  | .complete attrs elapsed =>
    match cfg.counter, cfg.histogram, cfg.gauge with
    | some counter, some histogram, some gauge =>
      (match increment_counter backend counter 1 attrs s.metrics with
      | .error _ => s
      | .ok m2 =>
        match record_histogram backend histogram elapsed attrs m2 with
        | .error _ => { s with metrics := m2 }
        | .ok m3 =>
          let active2 := s.active_users - 1
          match set_gauge backend gauge (active2 : ℚ) attrs m3 with
          | .error _ => { s with metrics := m3 }
          | .ok m4 => ⟨active2, m4⟩)
    | _, _, _ => s

/-- Run a whole interleaving of request phases. -/
def runTrace (backend : String) (cfg : ConfigState) (tr : List Event)
    (s : SrvState) : SrvState :=
  tr.foldl (fun s e => stepEvent backend cfg e s) s

/-- Number of ENTERED phases in a trace. -/
def countEnters (tr : List Event) : Nat :=
  tr.countP fun e => match e with | .enter _ => true | _ => false

/-- Number of COMPLETED phases in a trace. -/
def countCompletes (tr : List Event) : Nat :=
  tr.countP fun e => match e with | .complete _ _ => true | _ => false

/-- Number of ENTERED phases for one specific route label set. -/
def countEntersAt (tr : List Event) (r : RouteAttrs) : Nat :=
  tr.countP fun e => match e with | .enter a => a = r | _ => false

/-- Number of COMPLETED phases for one specific route label set. -/
def countCompletesAt (tr : List Event) (r : RouteAttrs) : Nat :=
  tr.countP fun e => match e with | .complete a _ => a = r | _ => false

/-- Requests in flight on one specific route after a trace. -/
def perRouteInflight (tr : List Event) (r : RouteAttrs) : Int :=
  (countEntersAt tr r : Int) - (countCompletesAt tr r : Int)

theorem stepEvent_enter_consistent (backend : String) (cfg : ConfigState)
    (h : instrumentsConsistent backend cfg) (attrs : RouteAttrs) (s : SrvState) :
    stepEvent backend cfg (.enter attrs) s =
      ⟨s.active_users + 1,
       gaugeSetPure ((s.active_users + 1 : Int) : ℚ) attrs s.metrics⟩ := by
  obtain ⟨hc, hh, hg⟩ := h
  rw [Option.map_eq_some'] at hg
  obtain ⟨g, hgeq, hgk⟩ := hg
  simp only [stepEvent, hgeq, set_gauge_consistent backend g hgk]

theorem stepEvent_complete_consistent (backend : String) (cfg : ConfigState)
    (h : instrumentsConsistent backend cfg) (attrs : RouteAttrs) (el : ℚ)
    (s : SrvState) :
    stepEvent backend cfg (.complete attrs el) s =
      ⟨s.active_users - 1,
       gaugeSetPure ((s.active_users - 1 : Int) : ℚ) attrs
         (histObservePure el attrs (counterIncPure 1 attrs s.metrics))⟩ := by
  obtain ⟨hc, hh, hg⟩ := h
  rw [Option.map_eq_some'] at hc hh hg
  obtain ⟨c, hceq, hck⟩ := hc
  obtain ⟨hi, hheq, hhk⟩ := hh
  obtain ⟨g, hgeq, hgk⟩ := hg
  simp only [stepEvent, hceq, hheq, hgeq,
    increment_counter_consistent backend c hck,
    record_histogram_consistent backend hi hhk,
    set_gauge_consistent backend g hgk]

theorem runTrace_cons (backend : String) (cfg : ConfigState) (e : Event)
    (tr : List Event) (s : SrvState) :
    runTrace backend cfg (e :: tr) s =
      runTrace backend cfg tr (stepEvent backend cfg e s) := rfl

theorem runTrace_append (backend : String) (cfg : ConfigState)
    (t1 t2 : List Event) (s : SrvState) :
    runTrace backend cfg (t1 ++ t2) s =
      runTrace backend cfg t2 (runTrace backend cfg t1 s) := by
  simp [runTrace, List.foldl_append]

theorem runTrace_active (backend : String) (cfg : ConfigState)
    (h : instrumentsConsistent backend cfg) (tr : List Event) (s : SrvState) :
    (runTrace backend cfg tr s).active_users =
      s.active_users + (countEnters tr : Int) - (countCompletes tr : Int) := by
  induction tr generalizing s with
  | nil => simp [runTrace, countEnters, countCompletes]
  | cons e rest ih =>
    rw [runTrace_cons, ih]
    cases e with
    | enter attrs =>
      rw [stepEvent_enter_consistent backend cfg h]
      simp only [countEnters, countCompletes, List.countP_cons]
      push_cast
      ring
    | complete attrs el =>
      rw [stepEvent_complete_consistent backend cfg h]
      simp only [countEnters, countCompletes, List.countP_cons]
      push_cast
      ring

/-- C4: each ENTERED phase increments the shared in-flight count by 1 and
writes the new absolute count to the gauge; each COMPLETED phase decrements
it by 1 and writes the new absolute count; after any interleaving in which
every entered request also completed, the in-flight count is back to exactly
0. -/
theorem inflight_gauge_balanced (backend : String) (cfg : ConfigState)
    (h : instrumentsConsistent backend cfg) (tr : List Event)
    (hbal : countEnters tr = countCompletes tr) (m : MetricsState) :
    (runTrace backend cfg tr ⟨0, m⟩).active_users = 0 ∧
    (∀ (attrs : RouteAttrs) (s : SrvState),
      (stepEvent backend cfg (.enter attrs) s).active_users = s.active_users + 1 ∧
      lookupQ (stepEvent backend cfg (.enter attrs) s).metrics.gauge attrs =
        ((s.active_users + 1 : Int) : ℚ)) ∧
    (∀ (attrs : RouteAttrs) (el : ℚ) (s : SrvState),
      (stepEvent backend cfg (.complete attrs el) s).active_users = s.active_users - 1 ∧
      lookupQ (stepEvent backend cfg (.complete attrs el) s).metrics.gauge attrs =
        ((s.active_users - 1 : Int) : ℚ)) := by
  refine ⟨?_, ?_, ?_⟩
  · rw [runTrace_active backend cfg h tr ⟨0, m⟩, hbal]
    ring
  · intro attrs s
    rw [stepEvent_enter_consistent backend cfg h]
    exact ⟨rfl, by simp [lookupQ_updQ_same]⟩
  · intro attrs el s
    rw [stepEvent_complete_consistent backend cfg h]
    exact ⟨rfl, by simp [lookupQ_updQ_same]⟩

/-- C4 witness: two interleaved requests on two routes, both completing, in
pull mode from the freshly initialized state. -/
theorem inflight_gauge_balanced_witness :
    instrumentsConsistent "prometheus" (setup_telemetry "prometheus" initialConfig) ∧
    countEnters [Event.enter ⟨"GET", "/fast"⟩, Event.enter ⟨"GET", "/slow"⟩,
        Event.complete ⟨"GET", "/slow"⟩ 2, Event.complete ⟨"GET", "/fast"⟩ (1 / 2)] =
      countCompletes [Event.enter ⟨"GET", "/fast"⟩, Event.enter ⟨"GET", "/slow"⟩,
        Event.complete ⟨"GET", "/slow"⟩ 2, Event.complete ⟨"GET", "/fast"⟩ (1 / 2)] ∧
    (runTrace "prometheus" (setup_telemetry "prometheus" initialConfig)
        [Event.enter ⟨"GET", "/fast"⟩, Event.enter ⟨"GET", "/slow"⟩,
         Event.complete ⟨"GET", "/slow"⟩ 2, Event.complete ⟨"GET", "/fast"⟩ (1 / 2)]
        ⟨0, emptyMetrics⟩).active_users = 0 :=
  ⟨by decide, by decide,
   (inflight_gauge_balanced "prometheus" (setup_telemetry "prometheus" initialConfig)
     (by decide)
     [Event.enter ⟨"GET", "/fast"⟩, Event.enter ⟨"GET", "/slow"⟩,
      Event.complete ⟨"GET", "/slow"⟩ 2, Event.complete ⟨"GET", "/fast"⟩ (1 / 2)]
     (by decide) emptyMetrics).1⟩

/-- C10: the absolute value each phase writes under a request's label set is
the process-wide in-flight count (entered minus completed phases over all
routes), not the per-route count; concretely, after `/fast` enters, `/slow`
enters and `/fast` completes, the gauge child for `/slow` holds 2 although
only 1 request is in flight on `/slow`. -/
theorem gauge_value_process_wide (backend : String) (cfg : ConfigState)
    (h : instrumentsConsistent backend cfg) :
    (∀ (tr : List Event) (r : RouteAttrs) (m : MetricsState),
      lookupQ (runTrace backend cfg (tr ++ [Event.enter r]) ⟨0, m⟩).metrics.gauge r =
        (((countEnters (tr ++ [Event.enter r]) : Int) -
          (countCompletes (tr ++ [Event.enter r]) : Int) : Int) : ℚ)) ∧
    (lookupQ (runTrace backend cfg
        [Event.enter ⟨"GET", "/fast"⟩, Event.enter ⟨"GET", "/slow"⟩,
         Event.complete ⟨"GET", "/fast"⟩ 1] ⟨0, emptyMetrics⟩).metrics.gauge
        ⟨"GET", "/slow"⟩ = 2 ∧
     perRouteInflight
        [Event.enter ⟨"GET", "/fast"⟩, Event.enter ⟨"GET", "/slow"⟩,
         Event.complete ⟨"GET", "/fast"⟩ 1] ⟨"GET", "/slow"⟩ = 1) := by
  refine ⟨?_, ?_, by decide⟩
  · intro tr r m
    rw [runTrace_append, runTrace_cons]
    rw [stepEvent_enter_consistent backend cfg h]
    rw [show ∀ x : SrvState, runTrace backend cfg [] x = x from fun x => rfl]
    simp only [gaugeSetPure_gauge]
    rw [lookupQ_updQ_same]
    rw [runTrace_active backend cfg h tr ⟨0, m⟩]
    simp only [countEnters, countCompletes, List.countP_append, List.countP_cons,
      List.countP_nil]
    push_cast
    ring
  · rw [show ([Event.enter ⟨"GET", "/fast"⟩, Event.enter ⟨"GET", "/slow"⟩,
        Event.complete ⟨"GET", "/fast"⟩ 1] : List Event) =
        [Event.enter ⟨"GET", "/fast"⟩] ++ [Event.enter ⟨"GET", "/slow"⟩] ++
          [Event.complete ⟨"GET", "/fast"⟩ 1] from rfl]
    rw [runTrace_append, runTrace_append]
    simp only [runTrace, List.foldl_cons, List.foldl_nil]
    rw [stepEvent_enter_consistent backend cfg h,
      stepEvent_enter_consistent backend cfg h,
      stepEvent_complete_consistent backend cfg h]
    norm_num [emptyMetrics, gaugeSetPure, histObservePure, counterIncPure,
      updQ, updH, lookupQ]
    decide

/-- C10 witness: the process-wide gauge write in pull mode from the freshly
initialized state, after `/fast` enters. -/
theorem gauge_value_process_wide_witness :
    instrumentsConsistent "prometheus" (setup_telemetry "prometheus" initialConfig) ∧
    lookupQ (runTrace "prometheus" (setup_telemetry "prometheus" initialConfig)
        ([] ++ [Event.enter ⟨"GET", "/fast"⟩]) ⟨0, emptyMetrics⟩).metrics.gauge
        ⟨"GET", "/fast"⟩ =
      (((countEnters ([] ++ [Event.enter ⟨"GET", "/fast"⟩]) : Int) -
        (countCompletes ([] ++ [Event.enter ⟨"GET", "/fast"⟩]) : Int) : Int) : ℚ) :=
  ⟨by decide,
   (gauge_value_process_wide "prometheus"
     (setup_telemetry "prometheus" initialConfig) (by decide)).1
     [] ⟨"GET", "/fast"⟩ emptyMetrics⟩

/-- C5: when the downstream handler raises, the middleware's COMPLETED steps
(counter increment, histogram observation, gauge decrement) do not run: the
exception propagates, the counter and histogram aggregates are untouched,
and `active_users` — mirrored into the gauge at entry — stays elevated by
exactly 1. -/
theorem middleware_handler_failure (backend : String) (cfg : ConfigState)
    (h : instrumentsConsistent backend cfg) (req : Request) (elapsed : ℚ)
    (s : SrvState) :
    (handle_incoming_requests backend cfg req elapsed .raises s).1 =
      .handlerError ∧
    (handle_incoming_requests backend cfg req elapsed .raises s).2.active_users =
      s.active_users + 1 ∧
    (handle_incoming_requests backend cfg req elapsed .raises s).2.metrics.counter =
      s.metrics.counter ∧
    (handle_incoming_requests backend cfg req elapsed .raises s).2.metrics.histogram =
      s.metrics.histogram ∧
    lookupQ (handle_incoming_requests backend cfg req elapsed .raises s).2.metrics.gauge
        ⟨req.method, req.path⟩ = ((s.active_users + 1 : Int) : ℚ) := by
  rw [handle_incoming_requests_raises backend cfg h req elapsed s]
  refine ⟨rfl, rfl, rfl, rfl, ?_⟩
  simp [lookupQ_updQ_same]

/-- C5 witness: a failing handler on the `/error` route in push mode, from
the freshly initialized state. -/
theorem middleware_handler_failure_witness :
    instrumentsConsistent "signoz" (setup_telemetry "signoz" initialConfig) ∧
    ((handle_incoming_requests "signoz" (setup_telemetry "signoz" initialConfig)
        ⟨"GET", "/error"⟩ 0 .raises ⟨0, emptyMetrics⟩).1 = .handlerError ∧
     (handle_incoming_requests "signoz" (setup_telemetry "signoz" initialConfig)
        ⟨"GET", "/error"⟩ 0 .raises ⟨0, emptyMetrics⟩).2.active_users =
       (⟨0, emptyMetrics⟩ : SrvState).active_users + 1 ∧
     (handle_incoming_requests "signoz" (setup_telemetry "signoz" initialConfig)
        ⟨"GET", "/error"⟩ 0 .raises ⟨0, emptyMetrics⟩).2.metrics.counter =
       emptyMetrics.counter ∧
     (handle_incoming_requests "signoz" (setup_telemetry "signoz" initialConfig)
        ⟨"GET", "/error"⟩ 0 .raises ⟨0, emptyMetrics⟩).2.metrics.histogram =
       emptyMetrics.histogram ∧
     lookupQ (handle_incoming_requests "signoz" (setup_telemetry "signoz" initialConfig)
        ⟨"GET", "/error"⟩ 0 .raises ⟨0, emptyMetrics⟩).2.metrics.gauge
        ⟨"GET", "/error"⟩ = (((⟨0, emptyMetrics⟩ : SrvState).active_users + 1 : Int) : ℚ)) :=
  ⟨by decide,
   middleware_handler_failure "signoz" (setup_telemetry "signoz" initialConfig)
     (by decide) ⟨"GET", "/error"⟩ 0 ⟨0, emptyMetrics⟩⟩

/-- C6: every completed request carries the `X-Process-Time` header, whose
value is the elapsed time rendered as a fixed-point string with exactly two
decimal digits, parseable as a non-negative rational. -/
theorem middleware_process_time_header (backend : String) (cfg : ConfigState)
    (h : instrumentsConsistent backend cfg) (req : Request) (elapsed : ℚ)
    (he : 0 ≤ elapsed) (status : Nat) (body : String) (s : SrvState) :
    (handle_incoming_requests backend cfg req elapsed (.ok status body) s).1 =
      .success ⟨status, [("X-Process-Time", formatFixed2 elapsed)], body⟩ ∧
    isFixed2 (formatFixed2 elapsed) = true ∧
    ∃ r : ℚ, parseFixed2 (formatFixed2 elapsed) = some r ∧ 0 ≤ r := by
  refine ⟨?_, (formatFixed2_shape elapsed he).1, (formatFixed2_shape elapsed he).2⟩
  rw [handle_incoming_requests_ok backend cfg h req elapsed status body s]

/-- C6 witness: a request of elapsed time 3/2 seconds through the pull-mode
facade, from the freshly initialized state. -/
theorem middleware_process_time_header_witness :
    instrumentsConsistent "prometheus" (setup_telemetry "prometheus" initialConfig) ∧
    (0 : ℚ) ≤ 3 / 2 ∧
    ((handle_incoming_requests "prometheus" (setup_telemetry "prometheus" initialConfig)
        ⟨"GET", "/fast"⟩ (3 / 2) (.ok 200 "fast_response") ⟨0, emptyMetrics⟩).1 =
      .success ⟨200, [("X-Process-Time", formatFixed2 (3 / 2))], "fast_response"⟩ ∧
     isFixed2 (formatFixed2 (3 / 2)) = true ∧
     ∃ r : ℚ, parseFixed2 (formatFixed2 (3 / 2)) = some r ∧ 0 ≤ r) :=
  ⟨by decide, by norm_num,
   middleware_process_time_header "prometheus"
     (setup_telemetry "prometheus" initialConfig) (by decide) ⟨"GET", "/fast"⟩
     (3 / 2) (by norm_num) 200 "fast_response" ⟨0, emptyMetrics⟩⟩

/-- C7: per successfully completed request, the counter for the request's
label set grows by exactly 1 and its histogram gains exactly the one
observation `elapsed`; aggregates of every other label set are unchanged. -/
theorem middleware_counter_histogram (backend : String) (cfg : ConfigState)
    (h : instrumentsConsistent backend cfg) (req : Request) (elapsed : ℚ)
    (status : Nat) (body : String) (s : SrvState) :
    (∃ resp, (handle_incoming_requests backend cfg req elapsed (.ok status body) s).1 =
      .success resp) ∧
    lookupQ (handle_incoming_requests backend cfg req elapsed (.ok status body) s).2.metrics.counter
        ⟨req.method, req.path⟩ =
      lookupQ s.metrics.counter ⟨req.method, req.path⟩ + 1 ∧
    (∀ a' : RouteAttrs, a' ≠ ⟨req.method, req.path⟩ →
      lookupQ (handle_incoming_requests backend cfg req elapsed (.ok status body) s).2.metrics.counter a' =
        lookupQ s.metrics.counter a') ∧
    lookupH (handle_incoming_requests backend cfg req elapsed (.ok status body) s).2.metrics.histogram
        ⟨req.method, req.path⟩ =
      lookupH s.metrics.histogram ⟨req.method, req.path⟩ ++ [elapsed] ∧
    (∀ a' : RouteAttrs, a' ≠ ⟨req.method, req.path⟩ →
      lookupH (handle_incoming_requests backend cfg req elapsed (.ok status body) s).2.metrics.histogram a' =
        lookupH s.metrics.histogram a') := by
  rw [handle_incoming_requests_ok backend cfg h req elapsed status body s]
  refine ⟨⟨_, rfl⟩, ?_, ?_, ?_, ?_⟩
  · simp [lookupQ_updQ_same]
  · intro a' ha'
    simp [lookupQ_updQ_other _ _ _ _ ha']
  · simp [lookupH_updH_same]
  · intro a' ha'
    simp [lookupH_updH_other _ _ _ _ ha']

/-- C7 witness: one completed `/fast` request in pull mode from the freshly
initialized state, checked against a different label set. -/
theorem middleware_counter_histogram_witness :
    instrumentsConsistent "prometheus" (setup_telemetry "prometheus" initialConfig) ∧
    ((∃ resp, (handle_incoming_requests "prometheus" (setup_telemetry "prometheus" initialConfig)
        ⟨"GET", "/fast"⟩ (1 / 2) (.ok 200 "fast_response") ⟨0, emptyMetrics⟩).1 =
      .success resp) ∧
     lookupQ (handle_incoming_requests "prometheus" (setup_telemetry "prometheus" initialConfig)
        ⟨"GET", "/fast"⟩ (1 / 2) (.ok 200 "fast_response") ⟨0, emptyMetrics⟩).2.metrics.counter
        ⟨"GET", "/fast"⟩ =
      lookupQ emptyMetrics.counter ⟨"GET", "/fast"⟩ + 1 ∧
     (∀ a' : RouteAttrs, a' ≠ (⟨"GET", "/fast"⟩ : RouteAttrs) →
       lookupQ (handle_incoming_requests "prometheus" (setup_telemetry "prometheus" initialConfig)
        ⟨"GET", "/fast"⟩ (1 / 2) (.ok 200 "fast_response") ⟨0, emptyMetrics⟩).2.metrics.counter a' =
        lookupQ emptyMetrics.counter a') ∧
     lookupH (handle_incoming_requests "prometheus" (setup_telemetry "prometheus" initialConfig)
        ⟨"GET", "/fast"⟩ (1 / 2) (.ok 200 "fast_response") ⟨0, emptyMetrics⟩).2.metrics.histogram
        ⟨"GET", "/fast"⟩ =
      lookupH emptyMetrics.histogram ⟨"GET", "/fast"⟩ ++ [1 / 2] ∧
     (∀ a' : RouteAttrs, a' ≠ (⟨"GET", "/fast"⟩ : RouteAttrs) →
       lookupH (handle_incoming_requests "prometheus" (setup_telemetry "prometheus" initialConfig)
        ⟨"GET", "/fast"⟩ (1 / 2) (.ok 200 "fast_response") ⟨0, emptyMetrics⟩).2.metrics.histogram a' =
        lookupH emptyMetrics.histogram a')) :=
  ⟨by decide,
   middleware_counter_histogram "prometheus"
     (setup_telemetry "prometheus" initialConfig) (by decide) ⟨"GET", "/fast"⟩
     (1 / 2) 200 "fast_response" ⟨0, emptyMetrics⟩⟩

/-- C9: with any non-`"signoz"` backend, the initializer publishes prometheus
label-parent instruments; the inline push-style call shapes used by
src/main.py raise on them, and the src/main.py middleware variant therefore
fails on every request without mutating any metric aggregate (it still has
incremented `active_users` before the first failing call). -/
theorem direct_middleware_pull_mode_fails (backend : String)
    (hb : backend ≠ "signoz") :
    ((setup_telemetry backend initialConfig).counter.map Instrument.kind =
        some InstrumentKind.promParent ∧
     (setup_telemetry backend initialConfig).histogram.map Instrument.kind =
        some InstrumentKind.promParent ∧
     (setup_telemetry backend initialConfig).gauge.map Instrument.kind =
        some InstrumentKind.promParent) ∧
    (∀ inst : Instrument, inst.kind = InstrumentKind.promParent →
      ∀ (v : ℚ) (attrs : RouteAttrs) (m : MetricsState),
        (∃ e, inst.add v attrs m = .error e) ∧
        (∃ e, inst.record v attrs m = .error e) ∧
        (∃ e, inst.set v attrs m = .error e)) ∧
    (∀ (req : Request) (elapsed : ℚ) (outcome : MwOutcome) (a : Int)
        (m : MetricsState),
      (handle_incoming_requests_direct (setup_telemetry backend initialConfig)
          req elapsed outcome ⟨a, m⟩).1.isAttrError = true ∧
      (handle_incoming_requests_direct (setup_telemetry backend initialConfig)
          req elapsed outcome ⟨a, m⟩).2 = ⟨a + 1, m⟩) := by
  have hcfg : setup_telemetry backend initialConfig =
      { initialConfig with
        prometheus_registry := some
          ["http_requests_total", "http_request_duration_seconds", "active_users"]
        counter := some ⟨.promParent, "http_requests_total", 0⟩
        histogram := some ⟨.promParent, "http_request_duration_seconds", 1⟩
        gauge := some ⟨.promParent, "active_users", 2⟩
        fileLogHandlerInstalls := 1
        nextInstrumentId := 3
        telemetry_configured := true } := by
    simp [setup_telemetry, setup_metrics, setup_logging, setup_tracing,
      initialConfig, hb]
  refine ⟨by rw [hcfg]; exact ⟨rfl, rfl, rfl⟩, ?_, ?_⟩
  · intro inst hk v attrs m
    obtain ⟨k, nm, i⟩ := inst
    simp only at hk
    subst hk
    exact ⟨⟨_, rfl⟩, ⟨_, rfl⟩, ⟨_, rfl⟩⟩
  · intro req elapsed outcome a m
    rw [hcfg]
    exact ⟨rfl, rfl⟩

/-- The hexadecimal digits of `n`, most significant first (`[0]` for 0). -/
def natHexDigits (n : Nat) : List Nat :=
  if h : n < 16 then [n] else natHexDigits (n / 16) ++ [n % 16]
decreasing_by
  exact Nat.div_lt_self (by omega) (by omega)

/-- The lowercase hexadecimal character for digit `d` (clamped to `'0'`
above 15; callers only pass hex digits). -/
def hexCh : Nat → Char
  | 0 => '0'
  | 1 => '1'
  | 2 => '2'
  | 3 => '3'
  | 4 => '4'
  | 5 => '5'
  | 6 => '6'
  | 7 => '7'
  | 8 => '8'
  | 9 => '9'
  | 10 => 'a'
  | 11 => 'b'
  | 12 => 'c'
  | 13 => 'd'
  | 14 => 'e'
  | 15 => 'f'
  | _ => '0'

/-- Is `c` a lowercase hexadecimal digit character. -/
def isLowerHexCh (c : Char) : Bool :=
  (48 ≤ c.toNat && c.toNat ≤ 57) || (97 ≤ c.toNat && c.toNat ≤ 102)

/-- The Python formatting `format(n, "032x")` / `format(n, "016x")`
(src/config.py lines 49-50): lowercase hexadecimal, zero-padded on the left
to the requested minimum width. -/
def hexPad (w : Nat) (n : Nat) : String :=
  let ds := (natHexDigits n).map hexCh
  ⟨List.replicate (w - ds.length) '0' ++ ds⟩

/-- The view of `trace.get_current_span()` the enricher reads: the span
context identifiers and the `is_recording()` flag.  When no span is active,
OpenTelemetry yields an invalid span whose `is_recording()` is false. -/
structure SpanView where
  trace_id : Nat
  span_id : Nat
  is_recording : Bool
deriving DecidableEq

/-- Python dict assignment `event_dict[k] = v` on an ordered string dict. -/
def setKey : List (String × String) → String → String → List (String × String)
  | [], k, v => [(k, v)]
  | (k', v') :: rest, k, v =>
    if k' = k then (k', v) :: rest else (k', v') :: setKey rest k v

/-- Key membership in an ordered string dict. -/
def hasKey (d : List (String × String)) (k : String) : Bool :=
  d.any fun p => p.1 == k

/-- Embeds `register_otel_ids` (src/config.py lines 42-51): when the current span is
recording, stamp `trace_id` (32 lowercase zero-padded hex chars) and
`span_id` (16 lowercase zero-padded hex chars) into the event dict;
otherwise leave the dict untouched. -/
def register_otel_ids (span : SpanView) (event_dict : List (String × String)) :
    List (String × String) :=
  if span.is_recording then
    setKey (setKey event_dict "trace_id" (hexPad 32 span.trace_id))
      "span_id" (hexPad 16 span.span_id)
  else event_dict

theorem natHexDigits_length_le (w : Nat) : ∀ n : Nat, 1 ≤ w → n < 16 ^ w →
    (natHexDigits n).length ≤ w := by
  induction w with
  | zero => intro n h1; omega
  | succ w ih =>
    intro n h1 hn
    rw [natHexDigits]
    split
    · simp
    · rename_i hge
      have hw : 1 ≤ w := by
        by_contra hw0
        have : w = 0 := by omega
        subst this
        simp at hn
        omega
      have hdiv : n / 16 < 16 ^ w := by
        rw [Nat.div_lt_iff_lt_mul (by norm_num)]
        calc n < 16 ^ (w + 1) := hn
        _ = 16 ^ w * 16 := by ring
      have := ih (n / 16) hw hdiv
      simp only [List.length_append, List.length_cons, List.length_nil]
      omega

theorem hexCh_lowerHex (d : Nat) : isLowerHexCh (hexCh d) = true := by
  unfold hexCh
  split <;> decide

theorem hexPad_length (w n : Nat) (h1 : 1 ≤ w) (hn : n < 16 ^ w) :
    (hexPad w n).length = w := by
  have hlen : (natHexDigits n).length ≤ w := natHexDigits_length_le w n h1 hn
  simp only [hexPad, String.length, List.length_append, List.length_replicate,
    List.length_map]
  omega

theorem hexPad_lowerHex (w n : Nat) :
    (hexPad w n).data.all isLowerHexCh = true := by
  simp only [hexPad, List.all_append, List.all_eq_true, Bool.and_eq_true]
  refine ⟨?_, ?_⟩
  · intro c hc
    rw [List.eq_of_mem_replicate hc]
    decide
  · intro c hc
    rw [List.mem_map] at hc
    obtain ⟨d, _, rfl⟩ := hc
    exact hexCh_lowerHex d

theorem setKey_absent (d : List (String × String)) (k v : String)
    (h : hasKey d k = false) : setKey d k v = d ++ [(k, v)] := by
  induction d with
  | nil => rfl
  | cons p rest ih =>
    obtain ⟨k', v'⟩ := p
    simp only [hasKey, List.any_cons, Bool.or_eq_false_iff, beq_eq_false_iff_ne,
      ne_eq] at h
    simp only [setKey, if_neg h.1, List.cons_append, List.cons.injEq, true_and]
    exact ih (by simp [hasKey, h.2])

theorem hasKey_append (a b : List (String × String)) (k : String) :
    hasKey (a ++ b) k = (hasKey a k || hasKey b k) := by
  simp [hasKey, List.any_append]

theorem hasKey_nil (k : String) : hasKey [] k = false := rfl

theorem hasKey_cons (k k' v : String) (rest : List (String × String)) :
    hasKey ((k', v) :: rest) k = ((k' == k) || hasKey rest k) := by
  simp [hasKey, List.any_cons]

/-- C8: the enricher adds `trace_id` and `span_id` if and only if the active
span is recording; when it adds them, `trace_id` is 32 and `span_id` is 16
lowercase zero-padded hexadecimal characters appended to the event dict;
when the span is not recording, the dict is returned untouched, the fields
omitted rather than zeroed. -/
theorem register_otel_ids_spec (span : SpanView) (d : List (String × String))
    (hd1 : hasKey d "trace_id" = false) (hd2 : hasKey d "span_id" = false)
    (ht : span.trace_id < 2 ^ 128) (hs : span.span_id < 2 ^ 64) :
    hasKey (register_otel_ids span d) "trace_id" = span.is_recording ∧
    hasKey (register_otel_ids span d) "span_id" = span.is_recording ∧
    (span.is_recording = true →
      register_otel_ids span d =
        d ++ [("trace_id", hexPad 32 span.trace_id),
              ("span_id", hexPad 16 span.span_id)] ∧
      (hexPad 32 span.trace_id).length = 32 ∧
      (hexPad 32 span.trace_id).data.all isLowerHexCh = true ∧
      (hexPad 16 span.span_id).length = 16 ∧
      (hexPad 16 span.span_id).data.all isLowerHexCh = true) ∧
    (span.is_recording = false → register_otel_ids span d = d) := by
  have ht16 : span.trace_id < 16 ^ 32 := by
    calc span.trace_id < 2 ^ 128 := ht
    _ ≤ 16 ^ 32 := by norm_num
  have hs16 : span.span_id < 16 ^ 16 := by
    calc span.span_id < 2 ^ 64 := hs
    _ ≤ 16 ^ 16 := by norm_num
  cases hrec : span.is_recording with
  | false =>
    have hr : register_otel_ids span d = d := by
      simp [register_otel_ids, hrec]
    rw [hr]
    exact ⟨hd1, hd2, fun hcontra => absurd hcontra (by decide), fun _ => rfl⟩
  | true =>
    have hstep1 : setKey d "trace_id" (hexPad 32 span.trace_id) =
        d ++ [("trace_id", hexPad 32 span.trace_id)] := setKey_absent d _ _ hd1
    have habs2 : hasKey (d ++ [("trace_id", hexPad 32 span.trace_id)]) "span_id" = false := by
      rw [hasKey_append, hd2, hasKey_cons, hasKey_nil]
      decide
    have hr : register_otel_ids span d =
        d ++ [("trace_id", hexPad 32 span.trace_id),
              ("span_id", hexPad 16 span.span_id)] := by
      rw [register_otel_ids, if_pos hrec, hstep1, setKey_absent _ _ _ habs2,
        List.append_assoc]
      rfl
    rw [hr]
    refine ⟨?_, ?_, ?_, fun hcontra => absurd hcontra (by decide)⟩
    · rw [hasKey_append, hd1, hasKey_cons, hasKey_cons, hasKey_nil]
      decide
    · rw [hasKey_append, hd2, hasKey_cons, hasKey_cons, hasKey_nil]
      decide
    · intro _
      exact ⟨rfl, hexPad_length 32 span.trace_id (by norm_num) ht16,
        hexPad_lowerHex 32 span.trace_id,
        hexPad_length 16 span.span_id (by norm_num) hs16,
        hexPad_lowerHex 16 span.span_id⟩

/-- C8 witness: a recording span with small identifiers and an empty event
dict. -/
theorem register_otel_ids_spec_witness :
    hasKey [] "trace_id" = false ∧ hasKey [] "span_id" = false ∧
    (3 : Nat) < 2 ^ 128 ∧ (5 : Nat) < 2 ^ 64 ∧
    (hasKey (register_otel_ids ⟨3, 5, true⟩ []) "trace_id" =
        (⟨3, 5, true⟩ : SpanView).is_recording ∧
     hasKey (register_otel_ids ⟨3, 5, true⟩ []) "span_id" =
        (⟨3, 5, true⟩ : SpanView).is_recording ∧
     ((⟨3, 5, true⟩ : SpanView).is_recording = true →
       register_otel_ids ⟨3, 5, true⟩ [] =
         [] ++ [("trace_id", hexPad 32 (⟨3, 5, true⟩ : SpanView).trace_id),
                ("span_id", hexPad 16 (⟨3, 5, true⟩ : SpanView).span_id)] ∧
       (hexPad 32 (⟨3, 5, true⟩ : SpanView).trace_id).length = 32 ∧
       (hexPad 32 (⟨3, 5, true⟩ : SpanView).trace_id).data.all isLowerHexCh = true ∧
       (hexPad 16 (⟨3, 5, true⟩ : SpanView).span_id).length = 16 ∧
       (hexPad 16 (⟨3, 5, true⟩ : SpanView).span_id).data.all isLowerHexCh = true) ∧
     ((⟨3, 5, true⟩ : SpanView).is_recording = false →
       register_otel_ids ⟨3, 5, true⟩ [] = [])) :=
  ⟨rfl, rfl, by norm_num, by norm_num,
   register_otel_ids_spec ⟨3, 5, true⟩ [] rfl rfl (by norm_num) (by norm_num)⟩

/-- C9 witness: the direct-call failure with the concrete backend value
`"prometheus"`. -/
theorem direct_middleware_pull_mode_fails_witness :
    "prometheus" ≠ "signoz" ∧
    ((handle_incoming_requests_direct (setup_telemetry "prometheus" initialConfig)
        ⟨"GET", "/fast"⟩ 0 (.ok 200 "fast_response") ⟨0, emptyMetrics⟩).1.isAttrError = true ∧
     (handle_incoming_requests_direct (setup_telemetry "prometheus" initialConfig)
        ⟨"GET", "/fast"⟩ 0 (.ok 200 "fast_response") ⟨0, emptyMetrics⟩).2 =
       ⟨0 + 1, emptyMetrics⟩) :=
  ⟨by decide,
   (direct_middleware_pull_mode_fails "prometheus" (by decide)).2.2
     ⟨"GET", "/fast"⟩ 0 (.ok 200 "fast_response") 0 emptyMetrics⟩

/-- Embeds `prometheus_client.CONTENT_TYPE_LATEST`. -/
def CONTENT_TYPE_LATEST : String := "text/plain; version=0.0.4; charset=utf-8"

/-- One metric family's header lines in the text exposition format. -/
def metricBlock (n : String) : String :=
  "# HELP " ++ n ++ "\n# TYPE " ++ n ++ "\n"

/-- Embeds `prometheus_client.generate_latest(registry)`: the text exposition of the
registry, one block per registered metric family in registration order.  The
model renders each family's `# HELP` / `# TYPE` header lines; sample lines
and the default platform collectors are elided — the claims only concern the
presence of the three application metric family names. -/
def generate_latest : Registry → String
  | [] => ""
  | n :: rest => metricBlock n ++ generate_latest rest

/-- The response body FastAPI produces when a route RETURNS (instead of
raising) an `HTTPException` object: the object is not a `Response`, so it is
serialized with `jsonable_encoder` — which falls back to `vars(obj)`, the
attribute dict — and wrapped in a `JSONResponse` with the route's default
status 200. -/
def returnedHTTPExceptionBody (status_code : Nat) (detail : String) : String :=
  "\x7b\"status_code\": " ++ natRepr status_code ++ ", \"detail\": \"" ++
    detail ++ "\", \"headers\": null\x7d"

/-- The `GET /metrics` route (src/app/main.py lines 70-78): with no registry
handle (push mode) it constructs `HTTPException(status_code=400, ...)` but
`return`s it instead of raising, so FastAPI serializes the exception object
as a JSON body with the default status 200; with a registry handle (pull
mode) it returns the exposition text with the prometheus content type,
status 200. -/
def metrics (cfg : ConfigState) : Response :=
  match cfg.prometheus_registry with
  | none =>
    ⟨200, [("content-type", "application/json")],
     returnedHTTPExceptionBody 400 "Prometheus observability platform not configured"⟩
  | some registry =>
    ⟨200, [("content-type", CONTENT_TYPE_LATEST)], generate_latest registry⟩

theorem infix_of_infix_left {α} (l l₁ l₂ : List α) (h : l <:+: l₁) :
    l <:+: l₁ ++ l₂ := by
  obtain ⟨s, t, rfl⟩ := h
  exact ⟨s, t ++ l₂, by simp⟩

theorem infix_of_infix_right {α} (l l₁ l₂ : List α) (h : l <:+: l₂) :
    l <:+: l₁ ++ l₂ := by
  obtain ⟨s, t, rfl⟩ := h
  exact ⟨l₁ ++ s, t, by simp⟩

theorem data_infix_metricBlock (n : String) :
    n.data <:+: (metricBlock n).data := by
  simp only [metricBlock, String.data_append]
  exact ⟨("# HELP " : String).data,
    (("\n# TYPE " : String).data ++ n.data ++ ("\n" : String).data), by simp⟩

theorem data_infix_generate_latest (reg : Registry) (n : String)
    (hn : n ∈ reg) : n.data <:+: (generate_latest reg).data := by
  induction reg with
  | nil => cases hn
  | cons m rest ih =>
    rw [List.mem_cons] at hn
    have hdata : (generate_latest (m :: rest)).data =
        (metricBlock m).data ++ (generate_latest rest).data := by
      simp [generate_latest, String.data_append]
    rw [hdata]
    cases hn with
    | inl heq =>
      subst heq
      exact infix_of_infix_left _ _ _ (data_infix_metricBlock n)
    | inr hmem =>
      exact infix_of_infix_right _ _ _ (ih hmem)

/-- C1 evaluation: in pull mode `GET /metrics` returns 200 with the registry
exposition containing all three metric family names, as claimed; in push
mode (no registry handle) the handler returns — rather than raises — the
constructed `HTTPException(400)`, so the actual response status is 200 with
the exception object serialized as the body, not the claimed 400-class
error. -/
theorem metrics_route_eval :
    ((metrics (setup_telemetry "signoz" initialConfig)).status = 200 ∧
     (metrics (setup_telemetry "signoz" initialConfig)).body =
       returnedHTTPExceptionBody 400
         "Prometheus observability platform not configured") ∧
    ((metrics (setup_telemetry "prometheus" initialConfig)).status = 200 ∧
     (metrics (setup_telemetry "prometheus" initialConfig)).body =
       generate_latest
         ["http_requests_total", "http_request_duration_seconds", "active_users"] ∧
     ("http_requests_total" : String).data <:+:
       (metrics (setup_telemetry "prometheus" initialConfig)).body.data ∧
     ("http_request_duration_seconds" : String).data <:+:
       (metrics (setup_telemetry "prometheus" initialConfig)).body.data ∧
     ("active_users" : String).data <:+:
       (metrics (setup_telemetry "prometheus" initialConfig)).body.data) := by
  have hpush : (setup_telemetry "signoz" initialConfig).prometheus_registry = none := by
    decide
  have hpull : (setup_telemetry "prometheus" initialConfig).prometheus_registry =
      some ["http_requests_total", "http_request_duration_seconds", "active_users"] := by
    decide
  have hbody : (metrics (setup_telemetry "prometheus" initialConfig)).body =
      generate_latest
        ["http_requests_total", "http_request_duration_seconds", "active_users"] := by
    rw [metrics, hpull]
  refine ⟨⟨?_, ?_⟩, ?_, hbody, ?_, ?_, ?_⟩
  · rw [metrics, hpush]
  · rw [metrics, hpush]
  · rw [metrics, hpull]
  · rw [hbody]
    exact data_infix_generate_latest _ _ (by simp)
  · rw [hbody]
    exact data_infix_generate_latest _ _ (by simp)
  · rw [hbody]
    exact data_infix_generate_latest _ _ (by simp)

end Obs
